import Mathlib

/-!
Shallow embedding of `src/blackcat/data_processing.py` (BlackCat project).

Machine integers are modelled as `Nat`/`Int` with explicit masking;
Python floats are modelled as `ℚ` (the decimal literals of the source are
taken at their decimal value); fallible code returns `Except`/`Option`.
Each definition mirrors one function or constant of the source file.
-/

namespace BlackCat

/-- `TDC_FREQ = 340.0` (data_processing.py line 20). -/
def TDC_FREQ : ℚ := 340

/-- `FT_UNIT = 1000000.0 / TDC_FREQ` (line 21). -/
def FT_UNIT : ℚ := 1000000 / TDC_FREQ

/-- `EPOC_UNIT = 4096.0 * 1000.0 / TDC_FREQ` (line 22, under the comment
"For BlackCat TDCs").  This binding is immediately shadowed by the
reassignment on line 27, so no runtime code ever reads this value. -/
def EPOC_UNIT_line22 : ℚ := 4096 * 1000 / TDC_FREQ

/-- `BLOCK_RAM_SIZE = 512` (line 23). -/
def BLOCK_RAM_SIZE : ℕ := 512

/-- `COARSE_UNIT = 200000.0  # ps` (line 26, "for external usb TDCs"). -/
def COARSE_UNIT : ℚ := 200000

/-- `EPOC_UNIT = (262144 * COARSE_UNIT) / 1000.0  # ns` (line 27).
This reassignment shadows the line-22 value for the whole module, so this
is the value every use of `EPOC_UNIT` in the file actually sees. -/
def EPOC_UNIT : ℚ := 262144 * COARSE_UNIT / 1000

/-- `MAX_TDC_CHANNEL = 4` (line 29). -/
def MAX_TDC_CHANNEL : ℕ := 4

/-- `TEMP_CHANNEL = 4` (line 30). -/
def TEMP_CHANNEL : ℕ := 4

/-! ## DLM decoder (`unpack_dlm_data`, lines 159–431) -/

/-- One output record of `unpack_dlm_data`: the line
`f"{ch_a:2} {delta_t:11.5f} {mode}"` (line 408), kept structurally. -/
structure DlmLine where
  ch : ℕ
  delta_t : ℚ
  mode : ℤ
  deriving Repr, DecidableEq

/-- The fatal `ValueError`s of `unpack_dlm_data`. -/
inductive DlmErr where
  /-- `raise ValueError("Wrong structure: EPOC found")` (line 389). -/
  | epochFound
  /-- `raise ValueError("Channel mixup detected")` (line 414). -/
  | channelMixup
  deriving Repr, DecidableEq

/-- `process_epoch` (lines 201–219): given a data word, the previous raw
epoch and the first-hit flag, return the new raw epoch, the epoch
difference in ns and the returned first-hit flag.  Note that the
first-hit branch returns `False` for the flag. -/
def process_epoch (dataword epoc_raw : ℕ) (first_hit : Bool) : ℕ × ℚ × Bool :=
  let epoc := dataword &&& 0x0FFFFFFF
  if first_hit then (epoc, 0, false)
  else
    let epoc_diff_int : ℤ := (epoc : ℤ) - (epoc_raw : ℤ)
    let epoc_diff_int := if epoc_diff_int < 0 then epoc_diff_int + 2 ^ 28 else epoc_diff_int
    (epoc, (epoc_diff_int : ℚ) * EPOC_UNIT, first_hit)

/-- `process_hit` (lines 221–238): extract channel, coarse count and
fine-time index from a hit word and compute the corrected time in ns
using the calibration lookup table `lut` (the `BIN_CENTER` column). -/
def process_hit (lut : ℕ → ℚ) (dataword : ℕ) : ℕ × ℚ :=
  let ch := (dataword &&& 0x1FC00000) >>> 22
  let ct := ((dataword &&& 0x000007FF) <<< 1)
    + (if dataword &&& 0x00200000 ≠ 0 then 1 else 0)
  let ft := (dataword &&& 0x001FF000) >>> 12
  let fine := lut ft / 1000
  let coarse := (ct : ℚ) * 1000 / TDC_FREQ
  (ch, coarse - fine)

/-- Mode classification of the epoch difference against the nominal DLM
period (lines 375–384). -/
def classify_dlm (dlm_period epoc_diff : ℚ) : ℤ :=
  if dlm_period * (95 / 100) < epoc_diff ∧ epoc_diff ≤ dlm_period * (105 / 100) then 0
  else if 2 * dlm_period * (95 / 100) < epoc_diff ∧ epoc_diff ≤ 2 * dlm_period * (105 / 100) then 1
  else -1

/-- The position of the main loop of `unpack_dlm_data` within one
epoch/hit/hit group.  The loop body (lines 360–414) reads up to three
further words with inner `next(longwords)` calls; phases record where in
the body the stream pointer stands, so that the loop becomes a one-word
step function (the stateful closures made explicit, as a state machine).
-/
inductive DlmPhase where
  /-- Top of the `for` loop: the next word should be an epoch. -/
  | expectEpoch
  /-- After a processed epoch (line 387): the next word must be a hit. -/
  | expectFirstHit (mode : ℤ)
  /-- After the first hit (line 394): the next word is the second hit,
  unless it is an unsolicited epoch (`epochSeen = false` still allows
  one, lines 396–400); after that epoch the following word is fed to
  `process_hit` unconditionally (`epochSeen = true`). -/
  | expectSecondHit (mode : ℤ) (ch_a : ℕ) (hit_a : ℚ) (epochSeen : Bool)
  deriving Repr, DecidableEq

/-- The mutable state of the decode loop: `epoc_raw`, `first_hit`
(lines 197–198) and the loop position. -/
structure DlmState where
  epoc_raw : ℕ
  first_hit : Bool
  phase : DlmPhase
  deriving Repr, DecidableEq

/-- Initial state of a decode pass (lines 197–198). -/
def dlmInit : DlmState := ⟨0, true, .expectEpoch⟩

/-- One word of the main loop of `unpack_dlm_data` (lines 360–414):
either a fatal `ValueError`, or the new state together with the line
emitted by this word, if any. -/
def dlmStep (lut : ℕ → ℚ) (dlm_period : ℚ) (s : DlmState) (w : ℕ) :
    Except DlmErr (DlmState × Option DlmLine) :=
  match s.phase with
  | .expectEpoch =>
    -- `if dataword & 0x80000000:` — hit found where an epoch is expected:
    -- warning only (lines 362–365), the word is skipped, decoding goes on.
    if w.testBit 31 then .ok (s, none)
    else
      let r := process_epoch w s.epoc_raw s.first_hit
      if r.2.2 then .ok (⟨r.1, r.2.2, .expectEpoch⟩, none)
      else .ok (⟨r.1, r.2.2, .expectFirstHit (classify_dlm dlm_period r.2.1)⟩, none)
  | .expectFirstHit mode =>
    if ¬ w.testBit 31 then .error .epochFound
    else
      let ha := process_hit lut w
      .ok (⟨s.epoc_raw, s.first_hit, .expectSecondHit mode ha.1 ha.2 false⟩, none)
  | .expectSecondHit mode ch_a hit_a epochSeen =>
    if ¬ epochSeen ∧ ¬ w.testBit 31 then
      -- unsolicited epoch before the second hit (lines 396–400)
      let r := process_epoch w s.epoc_raw s.first_hit
      .ok (⟨r.1, r.2.2, .expectSecondHit mode ch_a hit_a true⟩, none)
    else
      -- the word is handed to `process_hit` without a further check
      let hb := process_hit lut w
      if ch_a = hb.1 then
        let dt := hb.2 - hit_a
        let dt := if dt < 0 then dt + EPOC_UNIT else dt
        .ok (⟨s.epoc_raw, s.first_hit, .expectEpoch⟩, some ⟨ch_a, dt, mode⟩)
      else .error .channelMixup

/-- The main loop of `unpack_dlm_data` over the stream of 32-bit
longwords: the lines emitted before the pass ended, and the fatal error
that aborted it, if any.  Running off the end of the stream
(`StopIteration`, also mid-group) is a normal termination (lines
416–418). -/
def dlmRun (lut : ℕ → ℚ) (dlm_period : ℚ) (s : DlmState) :
    List ℕ → List DlmLine × Option DlmErr
  | [] => ([], none)
  | w :: ws =>
    match dlmStep lut dlm_period s w with
    | .error e => ([], some e)
    | .ok (s', oline) =>
      let rest := dlmRun lut dlm_period s' ws
      (oline.toList ++ rest.1, rest.2)

/-- The Python error raised when `None` is used in a `with` statement
(`open(outfile, "w") if outfile else None as fout`, line 355): `None`
does not support the context manager protocol. -/
inductive PyErr where
  | noneNotAContextManager
  deriving Repr, DecidableEq

/-- Entering the `with` statement of line 353–356: when no output file is
given, the expression `None as fout` raises before any word is read;
otherwise the opened handle is truthy. -/
def enter_outfile_context : Option Unit → Except PyErr Bool
  | none => .error .noneNotAContextManager
  | some _ => .ok true

/-- `unpack_dlm_data` (lines 159–431), with the calibration table already
loaded into `lut` and the input stream given as the list of longwords.
Output is the pair (lines written to the output file, lines printed to
stdout) — each emitted line goes through `if fout: fout.write(...) else:
print(...)` (lines 409–412) — together with the aborting error, if any. -/
def unpack_dlm_data (lut : ℕ → ℚ) (dlm_period : ℚ) (outfile : Option Unit)
    (words : List ℕ) :
    Except PyErr ((List DlmLine × List DlmLine) × Option DlmErr) := do
  let fout ← enter_outfile_context outfile
  let r := dlmRun lut dlm_period dlmInit words
  return ((if fout then r.1 else [], if fout then [] else r.1), r.2)

/-! ## USB TDC decoder (`decode_usb_tdc`, lines 543–728)

The byte-level framing (`read_40bit_word`, and the optional `OK\r\n`
header that is sniffed and rewound over, lines 605–609) is abstracted:
the input is the list of 40-bit words the `while` loop receives. -/

/-- `channel = (dataword >> 36) & 0xF` (line 626). -/
def usb_channel (w : ℕ) : ℕ := (w >>> 36) &&& 0xF

/-- `coarse = (dataword >> 18) & 0x3FFFF` (line 630). -/
def usb_coarse (w : ℕ) : ℕ := (w >>> 18) &&& 0x3FFFF

/-- `fine = dataword & 0x3FFFF` (line 631). -/
def usb_fine (w : ℕ) : ℕ := w &&& 0x3FFFF

/-- `tdc_time = (coarse * COARSE_UNIT + fine) / 1000.0` (line 635), ns. -/
def usb_time (w : ℕ) : ℚ := ((usb_coarse w : ℚ) * COARSE_UNIT + (usb_fine w : ℚ)) / 1000

/-- The labels of the temperature output line (lines 709–718). -/
inductive TempLabel where
  | max31726
  | lm75b
  | unknownI2C
  | i2cError
  deriving Repr, DecidableEq

/-- One output line of `decode_usb_tdc`, kept structurally: either the
pairwise time-difference tokens `"{i-1}.{j} {abs(diff):11.5f}"` followed
by the mode tag (lines 588–590/592–599), or a temperature line
(line 720). -/
inductive UsbLine where
  | diffs (ps : List (ℕ × ℕ × ℚ)) (mode : ℤ)
  | temp (t : ℚ) (label : TempLabel)
  deriving Repr, DecidableEq

/-- The fatal `ValueError`s of `decode_usb_tdc`. -/
inductive UsbErr where
  /-- `raise ValueError("Invalid fine time.")` (line 633). -/
  | invalidFine
  /-- `raise ValueError(f"Time diff overflow: ...")` (line 587). -/
  | overflow
  /-- `raise ValueError(f"Broken channel: ...")` (line 724). -/
  | brokenChannel
  deriving Repr, DecidableEq

/-- The `(i - 1, j)` index pairs of `emit_time_differences`
(`for i in range(len(times), 0, -1): for j in range(i - 1)`,
lines 581–582, with `len(times) = MAX_TDC_CHANNEL = 4`). -/
def pair_indices : List (ℕ × ℕ) :=
  ((List.range MAX_TDC_CHANNEL).reverse).flatMap
    (fun i => (List.range i).map fun j => (i, j))

/-- The loop body of `emit_time_differences` (lines 581–588) over the
index pairs in order: each pairwise difference with one unwrap by
`EPOC_UNIT`; a difference still above 11000 after the unwrap is the
fatal time-diff-overflow `ValueError` (the only error this helper can
raise, hence `Except Unit`). -/
def emit_pairs (times : List ℚ) : List (ℕ × ℕ) → Except Unit (List (ℕ × ℕ × ℚ))
  | [] => .ok []
  | p :: ps =>
    let diff := times.getD p.1 0 - times.getD p.2 0
    let diff := if 11000 < |diff| then (if 0 < diff then diff - EPOC_UNIT else diff + EPOC_UNIT) else diff
    if 11000 < |diff| then .error ()
    else
      match emit_pairs times ps with
      | .error e => .error e
      | .ok rest => .ok ((p.1, p.2, |diff|) :: rest)

/-- `emit_time_differences` (lines 579–590): all pair tokens followed by
the mode tag. -/
def emit_time_differences (times : List ℚ) (mode : ℤ) : Except Unit UsbLine :=
  match emit_pairs times pair_indices with
  | .error e => .error e
  | .ok ps => .ok (.diffs ps mode)

/-- `emit_placeholder_block` (lines 592–599): all-zero pair tokens. -/
def emit_placeholder_block (mode : ℤ) : UsbLine :=
  .diffs (pair_indices.map fun p => (p.1, p.2, 0)) mode

/-- The decoder state (lines 611–616): `tdc_time_history`,
`tdc_hit_count`, `tdc_counter`, `old_tdc_time`, `first_hit`, and the
remaining `skip_events` budget. -/
structure UsbState where
  hist : List ℚ
  hitCount : List ℕ
  counter : ℕ
  oldTime : ℚ
  firstHit : Bool
  skipEvents : ℕ
  deriving Repr, DecidableEq

/-- Initial decoder state (lines 611–616) with the `skip_events`
argument. -/
def usbInit (skip_events : ℕ) : UsbState := ⟨[0, 0, 0, 0], [0, 0, 0, 0], 0, 0, true, skip_events⟩

/-- The classification input `time_diff` (lines 637–647): `-1` for the
very first hit, otherwise the difference to the previous hit, unwrapped
by `EPOC_UNIT` when negative beyond `dlm_diff` in magnitude. -/
def usb_time_diff (dlm_diff : ℚ) (s : UsbState) (w : ℕ) : ℚ :=
  if s.firstHit then -1
  else
    let d := usb_time w - s.oldTime
    if d < 0 then (if dlm_diff < |d| then d + EPOC_UNIT else d) else |d|

/-- One iteration of the `while` loop of `decode_usb_tdc`
(lines 621–724): the new state and the lines emitted by this word, or a
fatal error. -/
def usbStep (dlm_period dlm_diff : ℚ) (s : UsbState) (w : ℕ) :
    Except UsbErr (UsbState × List UsbLine) :=
  let channel := usb_channel w
  if channel < MAX_TDC_CHANNEL then
    if COARSE_UNIT < (usb_fine w : ℚ) then .error .invalidFine
    else
      let tdc_time := usb_time w
      let time_diff := usb_time_diff dlm_diff s w
      -- `old_tdc_time = tdc_time` (line 649); `first_hit = False` (line 639)
      let s1 : UsbState := { s with oldTime := tdc_time, firstHit := false }
      if time_diff ≤ dlm_diff * (110 / 100) then
        -- still inside the current block (lines 652–656)
        .ok ({ s1 with
                hist := s1.hist.set channel tdc_time,
                hitCount := s1.hitCount.set channel (s1.hitCount.getD channel 0 + 1),
                counter := s1.counter + 1 }, [])
      else
        let mode? : Option ℤ :=
          if dlm_period * (90 / 100) < time_diff ∧ time_diff ≤ dlm_period * (110 / 100) then some 0
          else if 2 * dlm_period * (90 / 100) < time_diff ∧ time_diff ≤ 2 * dlm_period * (110 / 100) then some 1
          else none
        match mode? with
        | none =>
          -- spurious hit between blocks, or unknown timing: `continue`
          -- with no reset and no emission (lines 665–670)
          .ok (s1, [])
        | some mode =>
          -- block boundary: emit (lines 672–687), then reset and seed the
          -- new block with this hit (lines 689–697)
          let reset : UsbState :=
            { s1 with
                hist := ([0, 0, 0, 0] : List ℚ).set channel tdc_time,
                hitCount := ([0, 0, 0, 0] : List ℕ).set channel 1,
                counter := 1 }
          if s1.counter = MAX_TDC_CHANNEL then
            if s1.skipEvents ≠ 0 then
              .ok ({ reset with skipEvents := s1.skipEvents - 1 }, [])
            else if s1.hitCount.all (· == 1) then
              match emit_time_differences s1.hist mode with
              | .error () => .error .overflow
              | .ok line => .ok (reset, [line])
            else
              .ok (reset, [emit_placeholder_block mode])
          else
            .ok (reset, [emit_placeholder_block mode])
  else if channel = TEMP_CHANNEL then
    let i2c_addr := (w >>> 24) &&& 0xFF
    let i2c_status := (w >>> 16) &&& 0xFF
    let i2c_data := w &&& 0xFFFF
    let r : ℚ × TempLabel :=
      if i2c_status = 0 then
        if i2c_addr = 0x9E then ((i2c_data : ℚ) * (390625 / 100000000), .max31726)
        else if i2c_addr = 0x92 then (((i2c_data / 32 : ℕ) : ℚ) * (125 / 1000), .lm75b)
        else (-666666 / 10000, .unknownI2C)
      else (-666666 / 10000, .i2cError)
    .ok (s, [.temp r.1 r.2])
  else
    .error .brokenChannel

/-- The `while` loop of `decode_usb_tdc` over the whole word stream:
all emitted lines, or the fatal error that aborted the pass. -/
def usbRun (dlm_period dlm_diff : ℚ) (s : UsbState) : List ℕ → Except UsbErr (List UsbLine)
  | [] => .ok []
  | w :: ws => do
    let (s', ls) ← usbStep dlm_period dlm_diff s w
    let rest ← usbRun dlm_period dlm_diff s' ws
    return ls ++ rest

/-! ## Calibration table builder and loader
(`process_raw_cal`, lines 40–97; `load_calibration_file`, lines 100–135)

The input dump is the list of the (non-negative) integer values parsed
from the lines (`int(line.strip(), 0)`, line 60 — register dumps of the
29-bit packed values of the data model); the produced table is the list of its
512 data rows.  The `%.5f` formatting of the float columns is modelled
as rounding to five decimal places; reading the table back parses those
decimals exactly. -/

/-- First pass of `process_raw_cal` (lines 55–66): a 512-slot histogram,
zero-initialised; each value writes `value & 0x3FFFF` into slot
`(value & 0x1FF00000) >> 20` — a later line for the same slot
overwrites the earlier one. -/
def cal_entries (dump : List ℕ) : ℕ → ℕ :=
  dump.foldl
    (fun entries value =>
      Function.update entries ((value &&& 0x1FF00000) >>> 20) (value &&& 0x0003FFFF))
    (fun _ => 0)

/-- `sum_entries = sum(entries)` (line 69). -/
def cal_sum_entries (dump : List ℕ) : ℕ :=
  ∑ i ∈ Finset.range BLOCK_RAM_SIZE, cal_entries dump i

/-- `bin_lsb = FT_UNIT / sum_entries if sum_entries != 0 else 0.0`
(line 70). -/
def cal_bin_lsb (dump : List ℕ) : ℚ :=
  if cal_sum_entries dump ≠ 0 then FT_UNIT / (cal_sum_entries dump : ℚ) else 0

/-- `bin_width = entries[i] * bin_lsb` (line 85). -/
def cal_bin_width (dump : List ℕ) (i : ℕ) : ℚ :=
  (cal_entries dump i : ℚ) * cal_bin_lsb dump

/-- The running `summed` after the first `n` bins of the second pass
(lines 73 and 86). -/
def cal_summed (dump : List ℕ) : ℕ → ℚ
  | 0 => 0
  | n + 1 => cal_summed dump n + cal_bin_width dump n

/-- `bin_center = summed - 0.5 * bin_width` (line 87). -/
def cal_bin_center (dump : List ℕ) (i : ℕ) : ℚ :=
  cal_summed dump (i + 1) - (1 / 2) * cal_bin_width dump i

/-- Rounding to five decimal places: the effect of the `"%10.5f"`
formatting (line 89) on the written value. -/
def round5 (q : ℚ) : ℚ := (round (q * 100000) : ℚ) / 100000

/-- One data row of the calibration table file:
`BIN ENTRIES BIN_WIDTH BIN_CENTER BIN_SUM` (lines 81 and 88–90).
The integer columns are written exactly, the float columns through
`%10.5f`. -/
structure CalRow where
  bin : ℕ
  entries : ℕ
  bin_width : ℚ
  bin_center : ℚ
  bin_sum : ℚ
  deriving Repr, DecidableEq

/-- `process_raw_cal` (lines 40–97): the 512 data rows written to the
output table file (the `# SUM` header line and the column-header line
precede them and are skipped by the loader). -/
def process_raw_cal (dump : List ℕ) : List CalRow :=
  (List.range BLOCK_RAM_SIZE).map fun i =>
    ⟨i, cal_entries dump i,
      round5 (cal_bin_width dump i),
      round5 (cal_bin_center dump i),
      round5 (cal_summed dump (i + 1))⟩

/-- `load_calibration_file` (lines 100–135): parse the table rows back
(the decimal text parses to exactly the written values) and fail with
`ValueError` unless there are exactly `BLOCK_RAM_SIZE` of them
(lines 125–128). -/
def load_calibration_file (rows : List CalRow) : Except String (List CalRow) :=
  if rows.length = BLOCK_RAM_SIZE then .ok rows
  else .error "Calibration file must contain exactly 512 bins."

/-! ## Delay aggregator, cycle variant (`average_dlm_data`, lines 434–540) -/

/-- One whitespace-separated column of an input line, as far as the
parser cares: text `int(...)` accepts, text only `float(...)` accepts,
or text neither accepts. -/
inductive Field where
  | intF (n : ℤ)
  | floatF (q : ℚ)
  | other
  deriving Repr, DecidableEq

/-- One input line: blank, `#`-comment, or a row of columns. -/
inductive SrcLine where
  | blank
  | comment
  | row (cols : List Field)
  deriving Repr, DecidableEq

/-- `int(columns[0])` (line 475): succeeds only on an integer literal. -/
def field_int : Field → Option ℤ
  | .intF n => some n
  | _ => none

/-- `float(columns[1])` (line 476): succeeds on an integer or float
literal. -/
def field_float : Field → Option ℚ
  | .intF n => some (n : ℚ)
  | .floatF q => some q
  | _ => none

/-- The per-line parsing of `average_dlm_data` (lines 467–479): skip
blank lines, comments and lines with fewer than two columns; a `ValueError`
in `int`/`float` skips the line. -/
def parse_line : SrcLine → Option (ℤ × ℚ)
  | .blank => none
  | .comment => none
  | .row cols =>
    if cols.length < 2 then none
    else do
      let ch ← field_int (cols.getD 0 .other)
      let d ← field_float (cols.getD 1 .other)
      return (ch, d)

/-- The kinds of exception `average_dlm_data` can raise. -/
inductive AvgErr where
  /-- `raise ValueError("mean_expected must be a positive integer")`
  (line 457). -/
  | nonPositiveMeanExpected
  /-- The `IndexError` of `prev_channel = data[0][0]` (line 484) when no
  line parsed. -/
  | emptyData
  /-- `raise ValueError(f"Expected ... channels in hist, ...")`
  (lines 491–494). -/
  | histLengthMismatch
  deriving Repr, DecidableEq

/-- The loop state of `average_dlm_data` (lines 481–486): `results`
(rows kept as their `(channel, mean)` pairs; the source joins them into
one text line per row), `buffer`, `tmp`, `prev_channel`, `data_ok` and
`skipped_entries`. -/
structure AvgState where
  results : List (List (ℤ × ℚ))
  buffer : List (ℤ × ℚ)
  tmp : List (ℤ × ℚ)
  prev_channel : ℤ
  data_ok : Bool
  skipped : ℕ
  deriving Repr, DecidableEq

/-- `flush_hist` (lines 488–494): append the cycle row when it has
exactly `n_channels` entries, else the fatal length-mismatch
`ValueError`. -/
def flush_hist (n_channels : ℕ) (st : AvgState) : Except AvgErr AvgState :=
  if st.tmp.length = n_channels then .ok { st with results := st.results ++ [st.tmp] }
  else .error .histLengthMismatch

/-- Mean of the buffered delays: `sum(d for _, d in buffer) / mean_expected`
(lines 500 and 525). -/
def buffer_mean (mean_expected : ℤ) (buffer : List (ℤ × ℚ)) : ℚ :=
  (buffer.map Prod.snd).sum / (mean_expected : ℚ)

/-- One iteration of the `for channel, delay in data` loop
(lines 496–527). -/
def avg_step (mean_expected : ℤ) (n_channels : ℕ) (st : AvgState) (cd : ℤ × ℚ) :
    Except AvgErr AvgState := do
  let channel := cd.1
  let delay := cd.2
  let st ←
    if channel ≠ st.prev_channel then
      -- channel rollover handling (lines 498–518)
      let st1 :=
        if st.data_ok ∧ (st.buffer.length : ℤ) = mean_expected then
          { st with tmp := st.tmp ++ [(st.prev_channel, buffer_mean mean_expected st.buffer)] }
        else { st with skipped := st.skipped + st.buffer.length }
      let st2 ←
        if st1.data_ok ∧ channel < st1.prev_channel then
          (flush_hist n_channels st1).map fun s => { s with tmp := [] }
        else if ¬ st1.data_ok ∧ channel < st1.prev_channel then
          .ok { st1 with data_ok := true, tmp := [] }
        else .ok st1
      pure { st2 with buffer := [(channel, delay)], prev_channel := channel }
    else
      -- same channel: just append (lines 519–521)
      pure { st with buffer := st.buffer ++ [(channel, delay)] }
  -- full-buffer averaging (lines 523–527)
  if (st.buffer.length : ℤ) = mean_expected ∧ st.data_ok then
    pure { st with tmp := st.tmp ++ [(channel, buffer_mean mean_expected st.buffer)], buffer := [] }
  else
    pure st

/-- `average_dlm_data` (lines 434–540), with the input already split
into lines: the flushed cycle rows and the skipped-entry count, or the
exception raised. -/
def average_dlm_data (mean_expected : ℤ) (n_channels : ℕ) (lines : List SrcLine) :
    Except AvgErr (List (List (ℤ × ℚ)) × ℕ) :=
  if mean_expected ≤ 0 then .error .nonPositiveMeanExpected
  else
    let data := lines.filterMap parse_line
    match data with
    | [] => .error .emptyData
    | d0 :: _ => do
      let st ← data.foldlM (avg_step mean_expected n_channels) ⟨[], [], [], d0.1, false, 0⟩
      -- final flush (lines 530–531)
      let st ← if st.data_ok ∧ st.tmp.length = n_channels then flush_hist n_channels st else .ok st
      return (st.results, st.skipped)

/-! ## Helper lemmas about the DLM decoder -/

theorem dlmRun_nil (lut : ℕ → ℚ) (P : ℚ) (s : DlmState) :
    dlmRun lut P s [] = ([], none) := rfl

theorem dlmRun_cons_ok (lut : ℕ → ℚ) (P : ℚ) (s s' : DlmState) (ol : Option DlmLine)
    (w : ℕ) (ws : List ℕ) (h : dlmStep lut P s w = .ok (s', ol)) :
    dlmRun lut P s (w :: ws)
      = (ol.toList ++ (dlmRun lut P s' ws).1, (dlmRun lut P s' ws).2) := by
  rw [dlmRun, h]

theorem dlmRun_cons_err (lut : ℕ → ℚ) (P : ℚ) (s : DlmState) (e : DlmErr)
    (w : ℕ) (ws : List ℕ) (h : dlmStep lut P s w = .error e) :
    dlmRun lut P s (w :: ws) = ([], some e) := by
  rw [dlmRun, h]

/-- The first-hit flag returned by `process_epoch` is always `false`:
the first-epoch branch returns `False` and the other branch returns the
incoming flag, which can then only be `false`. -/
theorem process_epoch_first_hit (w er : ℕ) (fh : Bool) :
    (process_epoch w er fh).2.2 = false := by
  cases fh <;> simp [process_epoch]

/-- A hit word at the top of the loop is skipped with a warning only. -/
theorem dlmStep_skip_hit (lut : ℕ → ℚ) (P : ℚ) (er : ℕ) (fh : Bool) (w : ℕ)
    (h : w.testBit 31 = true) :
    dlmStep lut P ⟨er, fh, .expectEpoch⟩ w = .ok (⟨er, fh, .expectEpoch⟩, none) := by
  simp [dlmStep, h]

/-- An epoch word at the top of the loop always advances to the
first-hit phase (the returned first-hit flag is always `false`). -/
theorem dlmStep_epoch (lut : ℕ → ℚ) (P : ℚ) (er : ℕ) (fh : Bool) (w : ℕ)
    (h : w.testBit 31 = false) :
    dlmStep lut P ⟨er, fh, .expectEpoch⟩ w
      = .ok (⟨(process_epoch w er fh).1, false,
          .expectFirstHit (classify_dlm P (process_epoch w er fh).2.1)⟩, none) := by
  simp [dlmStep, h, process_epoch_first_hit]

/-- A non-hit word where the first hit is required is fatal. -/
theorem dlmStep_first_hit_epoch_fatal (lut : ℕ → ℚ) (P : ℚ) (er : ℕ) (fh : Bool)
    (mode : ℤ) (w : ℕ) (h : w.testBit 31 = false) :
    dlmStep lut P ⟨er, fh, .expectFirstHit mode⟩ w = .error .epochFound := by
  simp [dlmStep, h]

/-- A hit word in the first-hit position advances to the second-hit
phase. -/
theorem dlmStep_first_hit (lut : ℕ → ℚ) (P : ℚ) (er : ℕ) (fh : Bool)
    (mode : ℤ) (w : ℕ) (h : w.testBit 31 = true) :
    dlmStep lut P ⟨er, fh, .expectFirstHit mode⟩ w
      = .ok (⟨er, fh,
          .expectSecondHit mode (process_hit lut w).1 (process_hit lut w).2 false⟩, none) := by
  simp [dlmStep, h]

/-- A hit word in the second-hit position with a matching channel emits
one output line and returns to the top of the loop. -/
theorem dlmStep_second_hit_emit (lut : ℕ → ℚ) (P : ℚ) (er : ℕ) (fh : Bool)
    (mode : ℤ) (ch_a : ℕ) (hit_a : ℚ) (es : Bool) (w : ℕ)
    (h : es = true ∨ w.testBit 31 = true) (hch : ch_a = (process_hit lut w).1) :
    dlmStep lut P ⟨er, fh, .expectSecondHit mode ch_a hit_a es⟩ w
      = .ok (⟨er, fh, .expectEpoch⟩,
          some ⟨ch_a,
            if (process_hit lut w).2 - hit_a < 0 then
              (process_hit lut w).2 - hit_a + EPOC_UNIT
            else (process_hit lut w).2 - hit_a,
            mode⟩) := by
  rcases h with h | h <;> simp [dlmStep, h, hch]

/-- A hit word in the second-hit position with a differing channel is
the fatal channel-mixup error. -/
theorem dlmStep_second_hit_mixup (lut : ℕ → ℚ) (P : ℚ) (er : ℕ) (fh : Bool)
    (mode : ℤ) (ch_a : ℕ) (hit_a : ℚ) (es : Bool) (w : ℕ)
    (h : es = true ∨ w.testBit 31 = true) (hch : ch_a ≠ (process_hit lut w).1) :
    dlmStep lut P ⟨er, fh, .expectSecondHit mode ch_a hit_a es⟩ w
      = .error .channelMixup := by
  rcases h with h | h <;> simp [dlmStep, h, hch]

/-! ## Claim C1 -/

/-- C1: the claim says the `EPOCH_UNIT` used by the DLM decoder equals
`4096 * 1000 / TDC_FREQ` ns (≈ 12047.06).  In the code that binding
(line 22) is shadowed by the USB constant `262144 * COARSE_UNIT / 1000 =
52428800` ns (line 27), and `unpack_dlm_data` uses the shadowed value in
both places: the epoch difference of a non-first epoch word is
multiplied by 52428800 (here: raw difference 1, stream `[0x0, 0x1]`
would give 52428800 ns), and a negative hit-pair difference is unwrapped
by adding 52428800 (the concrete run: hits at 50/17 ns and 0 ns emit
`-50/17 + 52428800 = 891289550/17`, not `-50/17 + 204800/17`). -/
theorem C1_epoch_unit_is_usb_value :
    EPOC_UNIT = 52428800 ∧
    EPOC_UNIT_line22 = 204800 / 17 ∧
    EPOC_UNIT ≠ EPOC_UNIT_line22 ∧
    process_epoch 1 0 false = (1, 52428800, false) ∧
    dlmRun (fun _ => 0) 10000000 dlmInit [0, 2 ^ 31 + 2 ^ 21, 2 ^ 31]
      = ([⟨0, 891289550 / 17, -1⟩], none) := by
  have hinit : (dlmInit : DlmState) = ⟨0, true, .expectEpoch⟩ := rfl
  have s1 : dlmStep (fun _ => 0) 10000000 dlmInit 0
      = .ok (⟨0, false, .expectFirstHit (-1)⟩, none) := by
    rw [hinit, dlmStep_epoch _ _ _ _ _ (by decide)]
    norm_num [process_epoch, classify_dlm]
  have a1 : ((2149580800 : ℕ) &&& 532676608) >>> 22 = 0 := by decide
  have a2 : ((2149580800 : ℕ) &&& 2047) <<< 1 = 0 := by decide
  have a3 : (2149580800 : ℕ) &&& 2097152 = 2097152 := by decide
  have a4 : ((2149580800 : ℕ) &&& 2093056) >>> 12 = 0 := by decide
  have s2 : dlmStep (fun _ => 0) 10000000 ⟨0, false, .expectFirstHit (-1)⟩ (2 ^ 31 + 2 ^ 21)
      = .ok (⟨0, false, .expectSecondHit (-1) 0 (50 / 17) false⟩, none) := by
    rw [dlmStep_first_hit _ _ _ _ _ _ (by decide)]
    norm_num [process_hit, TDC_FREQ, a1, a2, a3, a4]
  have b1 : ((2147483648 : ℕ) &&& 532676608) >>> 22 = 0 := by decide
  have b2 : ((2147483648 : ℕ) &&& 2047) <<< 1 = 0 := by decide
  have b3 : (2147483648 : ℕ) &&& 2097152 = 0 := by decide
  have b4 : ((2147483648 : ℕ) &&& 2093056) >>> 12 = 0 := by decide
  have s3 : dlmStep (fun _ => 0) 10000000
        ⟨0, false, .expectSecondHit (-1) 0 (50 / 17) false⟩ (2 ^ 31)
      = .ok (⟨0, false, .expectEpoch⟩, some ⟨0, 891289550 / 17, -1⟩) := by
    rw [dlmStep_second_hit_emit _ _ _ _ _ _ _ _ _ (Or.inr (by decide))
      (by simp [process_hit]; decide)]
    norm_num [process_hit, TDC_FREQ, EPOC_UNIT, COARSE_UNIT, b1, b2, b3, b4]
  refine ⟨by norm_num [EPOC_UNIT, COARSE_UNIT],
    by norm_num [EPOC_UNIT_line22, TDC_FREQ],
    by norm_num [EPOC_UNIT, EPOC_UNIT_line22, COARSE_UNIT, TDC_FREQ], ?_, ?_⟩
  · norm_num [process_epoch, EPOC_UNIT, COARSE_UNIT]
  · rw [dlmRun_cons_ok _ _ _ _ _ _ _ s1, dlmRun_cons_ok _ _ _ _ _ _ _ s2,
      dlmRun_cons_ok _ _ _ _ _ _ _ s3, dlmRun_nil]
    simp

/-! ## Claim C3 -/

/-- C3 counterexample: a pass whose first word is a hit where the
protocol structurally requires an epoch.  The decoder does not raise:
the misplaced word is suppressed with a warning, decoding continues, and
the pass still emits an output line and ends without error — refuting
that every hit/epoch ordering violation is fatal. -/
theorem C3_counterexample :
    dlmRun (fun _ => 0) 10000000 dlmInit [2 ^ 31, 0, 2 ^ 31, 2 ^ 31]
      = ([⟨0, 0, -1⟩], none) := by
  have hinit : (dlmInit : DlmState) = ⟨0, true, .expectEpoch⟩ := rfl
  have s0 : dlmStep (fun _ => 0) 10000000 dlmInit (2 ^ 31)
      = .ok (⟨0, true, .expectEpoch⟩, none) := by
    rw [hinit]; exact dlmStep_skip_hit _ _ _ _ _ (by decide)
  have s1 : dlmStep (fun _ => 0) 10000000 ⟨0, true, .expectEpoch⟩ 0
      = .ok (⟨0, false, .expectFirstHit (-1)⟩, none) := by
    rw [dlmStep_epoch _ _ _ _ _ (by decide)]
    norm_num [process_epoch, classify_dlm]
  have b1 : ((2147483648 : ℕ) &&& 532676608) >>> 22 = 0 := by decide
  have b2 : ((2147483648 : ℕ) &&& 2047) <<< 1 = 0 := by decide
  have b3 : (2147483648 : ℕ) &&& 2097152 = 0 := by decide
  have b4 : ((2147483648 : ℕ) &&& 2093056) >>> 12 = 0 := by decide
  have s2 : dlmStep (fun _ => 0) 10000000 ⟨0, false, .expectFirstHit (-1)⟩ (2 ^ 31)
      = .ok (⟨0, false, .expectSecondHit (-1) 0 0 false⟩, none) := by
    rw [dlmStep_first_hit _ _ _ _ _ _ (by decide)]
    norm_num [process_hit, TDC_FREQ, b1, b2, b3, b4]
  have s3 : dlmStep (fun _ => 0) 10000000
        ⟨0, false, .expectSecondHit (-1) 0 0 false⟩ (2 ^ 31)
      = .ok (⟨0, false, .expectEpoch⟩, some ⟨0, 0, -1⟩) := by
    rw [dlmStep_second_hit_emit _ _ _ _ _ _ _ _ _ (Or.inr (by decide))
      (by simp [process_hit]; decide)]
    norm_num [process_hit, TDC_FREQ, b1, b2, b3, b4]
  rw [dlmRun_cons_ok _ _ _ _ _ _ _ s0, dlmRun_cons_ok _ _ _ _ _ _ _ s1,
    dlmRun_cons_ok _ _ _ _ _ _ _ s2, dlmRun_cons_ok _ _ _ _ _ _ _ s3, dlmRun_nil]
  simp

/-- C3 amended: of the two hit/epoch ordering violations, only the
non-hit word in a hit position is fatal (`ValueError("Wrong structure:
EPOC found")`); a hit word where an epoch is expected is skipped with a
verbose-only warning and decoding continues with the rest of the
stream. -/
theorem C3_amended_structure_faults :
    (∀ (lut : ℕ → ℚ) (P : ℚ) (er : ℕ) (fh : Bool) (w : ℕ) (ws : List ℕ),
      w.testBit 31 = true →
        dlmRun lut P ⟨er, fh, .expectEpoch⟩ (w :: ws)
          = dlmRun lut P ⟨er, fh, .expectEpoch⟩ ws) ∧
    (∀ (lut : ℕ → ℚ) (P : ℚ) (e w1 : ℕ) (ws : List ℕ),
      e.testBit 31 = false → w1.testBit 31 = false →
        dlmRun lut P dlmInit (e :: w1 :: ws) = ([], some .epochFound)) := by
  constructor
  · intro lut P er fh w ws h
    rw [dlmRun_cons_ok _ _ _ _ _ _ _ (dlmStep_skip_hit _ _ _ _ _ h)]
    simp
  · intro lut P e w1 ws he h1
    have hinit : (dlmInit : DlmState) = ⟨0, true, .expectEpoch⟩ := rfl
    rw [hinit, dlmRun_cons_ok _ _ _ _ _ _ _ (dlmStep_epoch _ _ _ _ _ he),
      dlmRun_cons_err _ _ _ _ _ _ (dlmStep_first_hit_epoch_fatal _ _ _ _ _ _ h1)]
    simp

/-- C3 amended, concrete instance. -/
theorem C3_amended_witness :
    dlmRun (fun _ => 0) 10000000 ⟨0, true, .expectEpoch⟩ ((2 ^ 31) :: [5])
        = dlmRun (fun _ => 0) 10000000 ⟨0, true, .expectEpoch⟩ [5] ∧
    dlmRun (fun _ => 0) 10000000 dlmInit [0, 1, 99] = ([], some .epochFound) :=
  ⟨C3_amended_structure_faults.1 _ _ _ _ _ _ (by decide),
   C3_amended_structure_faults.2 _ _ _ _ _ (by decide) (by decide)⟩

/-! ## Claim C7 -/

/-- C7: after a processed epoch, two paired hit words whose channel
fields differ (here 2 and 3) abort the pass with the channel-mixup
`ValueError`: no line is emitted for the pair and nothing after it is
decoded, whatever the rest of the stream holds. -/
theorem C7_channel_mixup_fatal (lut : ℕ → ℚ) (P : ℚ) (e w1 w2 : ℕ) (ws : List ℕ)
    (he : e.testBit 31 = false) (h1 : w1.testBit 31 = true) (h2 : w2.testBit 31 = true)
    (hch1 : (process_hit lut w1).1 = 2) (hch2 : (process_hit lut w2).1 = 3) :
    dlmRun lut P dlmInit (e :: w1 :: w2 :: ws) = ([], some .channelMixup) := by
  have hinit : (dlmInit : DlmState) = ⟨0, true, .expectEpoch⟩ := rfl
  rw [hinit, dlmRun_cons_ok _ _ _ _ _ _ _ (dlmStep_epoch _ _ _ _ _ he),
    dlmRun_cons_ok _ _ _ _ _ _ _ (dlmStep_first_hit _ _ _ _ _ _ h1),
    dlmRun_cons_err _ _ _ _ _ _
      (dlmStep_second_hit_mixup _ _ _ _ _ _ _ _ _ (Or.inr h2) (by rw [hch1, hch2]; decide))]
  simp

/-- C7, concrete instance: epoch `0x0`, hit on channel 2, hit on
channel 3, and two further words that are never reached. -/
theorem C7_witness :
    dlmRun (fun _ => 0) 10000000 dlmInit
      [0, 2 ^ 31 + 2 * 2 ^ 22, 2 ^ 31 + 3 * 2 ^ 22, 0, 0] = ([], some .channelMixup) :=
  C7_channel_mixup_fatal _ _ _ _ _ _ (by decide) (by decide) (by decide)
    (by simp [process_hit]; decide) (by simp [process_hit]; decide)

/-! ## Claim C9 -/

/-- C9: with `outfile=None` the `with` statement enters `None` as a
context manager and raises before any word is decoded, for every input
stream; when an output path is supplied the pass runs and the
print-to-stdout side of `if fout` receives no line — decoded records are
produced only with an output file. -/
theorem C9_none_outfile_always_raises (lut : ℕ → ℚ) (P : ℚ) (words : List ℕ) :
    unpack_dlm_data lut P none words = .error .noneNotAContextManager ∧
    unpack_dlm_data lut P (some ()) words
      = .ok (((dlmRun lut P dlmInit words).1, []), (dlmRun lut P dlmInit words).2) := by
  constructor <;> simp [unpack_dlm_data, enter_outfile_context]

/-! ## Helper lemmas about the USB decoder -/

theorem usbRun_nil (P D : ℚ) (s : UsbState) : usbRun P D s [] = .ok [] := rfl

theorem usbRun_cons_ok (P D : ℚ) (s s' : UsbState) (ls rest : List UsbLine)
    (w : ℕ) (ws : List ℕ)
    (h : usbStep P D s w = .ok (s', ls)) (hr : usbRun P D s' ws = .ok rest) :
    usbRun P D s (w :: ws) = .ok (ls ++ rest) := by
  rw [usbRun, h]
  show Except.bind (Except.ok (s', ls)) _ = _
  rw [Except.bind]
  show Except.bind (usbRun P D s' ws) _ = _
  rw [hr, Except.bind]
  rfl

theorem usb_time_diff_first (D : ℚ) (s : UsbState) (w : ℕ) (h : s.firstHit = true) :
    usb_time_diff D s w = -1 := by
  simp [usb_time_diff, h]

theorem usb_time_diff_forward (D : ℚ) (s : UsbState) (w : ℕ) (h : s.firstHit = false)
    (h0 : 0 ≤ usb_time w - s.oldTime) :
    usb_time_diff D s w = usb_time w - s.oldTime := by
  simp [usb_time_diff, h, not_lt.2 h0, abs_of_nonneg h0]

/-- A hit whose classification input stays within `dlm_diff * 1.10` is
recorded into the current block and emits nothing. -/
theorem usbStep_inblock (P D : ℚ) (s : UsbState) (w : ℕ)
    (hch : usb_channel w < MAX_TDC_CHANNEL)
    (hf : ¬ COARSE_UNIT < (usb_fine w : ℚ))
    (htd : usb_time_diff D s w ≤ D * (110 / 100)) :
    usbStep P D s w = .ok
      (⟨s.hist.set (usb_channel w) (usb_time w),
        s.hitCount.set (usb_channel w) (s.hitCount.getD (usb_channel w) 0 + 1),
        s.counter + 1, usb_time w, false, s.skipEvents⟩, []) := by
  simp [usbStep, hch, hf, htd]

/-- A mode-0 boundary hit on a complete one-hit-per-channel block with
no skip budget emits the pairwise line and seeds the next block. -/
theorem usbStep_boundary_emit (P D : ℚ) (s : UsbState) (w : ℕ) (line : UsbLine)
    (hch : usb_channel w < MAX_TDC_CHANNEL)
    (hf : ¬ COARSE_UNIT < (usb_fine w : ℚ))
    (htd : ¬ usb_time_diff D s w ≤ D * (110 / 100))
    (hm1 : P * (90 / 100) < usb_time_diff D s w)
    (hm2 : usb_time_diff D s w ≤ P * (110 / 100))
    (hcnt : s.counter = MAX_TDC_CHANNEL)
    (hskip : s.skipEvents = 0)
    (hones : s.hitCount.all (· == 1) = true)
    (hemit : emit_time_differences s.hist 0 = .ok line) :
    usbStep P D s w = .ok
      (⟨([0, 0, 0, 0] : List ℚ).set (usb_channel w) (usb_time w),
        ([0, 0, 0, 0] : List ℕ).set (usb_channel w) 1,
        1, usb_time w, false, 0⟩, [line]) := by
  simp [usbStep, hch, hf, htd, hm1, hm2, hcnt, hskip, hones, hemit]

/-- One in-bound pair of the emission loop. -/
theorem emit_pairs_cons (times : List ℚ) (p : ℕ × ℕ) (ps : List (ℕ × ℕ))
    (rest : List (ℕ × ℕ × ℚ))
    (h : ¬ 11000 < |times.getD p.1 0 - times.getD p.2 0|)
    (hr : emit_pairs times ps = .ok rest) :
    emit_pairs times (p :: ps)
      = .ok ((p.1, p.2, |times.getD p.1 0 - times.getD p.2 0|) :: rest) := by
  rw [emit_pairs]
  simp only [if_neg h, hr]

/-- With all six pairwise differences within the 11000 ns bound, the
pairwise emission succeeds with no unwrap. -/
theorem emit_time_differences_ok (t0 t1 t2 t3 : ℚ) (mode : ℤ)
    (h30 : |t3 - t0| ≤ 11000) (h31 : |t3 - t1| ≤ 11000) (h32 : |t3 - t2| ≤ 11000)
    (h20 : |t2 - t0| ≤ 11000) (h21 : |t2 - t1| ≤ 11000) (h10 : |t1 - t0| ≤ 11000) :
    emit_time_differences [t0, t1, t2, t3] mode
      = .ok (.diffs [(3, 0, |t3 - t0|), (3, 1, |t3 - t1|), (3, 2, |t3 - t2|),
          (2, 0, |t2 - t0|), (2, 1, |t2 - t1|), (1, 0, |t1 - t0|)] mode) := by
  have hp : pair_indices = [(3, 0), (3, 1), (3, 2), (2, 0), (2, 1), (1, 0)] := rfl
  have g0 : ([t0, t1, t2, t3] : List ℚ).getD 0 0 = t0 := rfl
  have g1 : ([t0, t1, t2, t3] : List ℚ).getD 1 0 = t1 := rfl
  have g2 : ([t0, t1, t2, t3] : List ℚ).getD 2 0 = t2 := rfl
  have g3 : ([t0, t1, t2, t3] : List ℚ).getD 3 0 = t3 := rfl
  have e6 : emit_pairs [t0, t1, t2, t3] [] = .ok [] := rfl
  have e5 := emit_pairs_cons [t0, t1, t2, t3] (1, 0) [] _
    (by rw [g1, g0]; exact not_lt.2 h10) e6
  rw [g1, g0] at e5
  have e4 := emit_pairs_cons [t0, t1, t2, t3] (2, 1) [(1, 0)] _
    (by rw [g2, g1]; exact not_lt.2 h21) e5
  rw [g2, g1] at e4
  have e3 := emit_pairs_cons [t0, t1, t2, t3] (2, 0) [(2, 1), (1, 0)] _
    (by rw [g2, g0]; exact not_lt.2 h20) e4
  rw [g2, g0] at e3
  have e2 := emit_pairs_cons [t0, t1, t2, t3] (3, 2) [(2, 0), (2, 1), (1, 0)] _
    (by rw [g3, g2]; exact not_lt.2 h32) e3
  rw [g3, g2] at e2
  have e1 := emit_pairs_cons [t0, t1, t2, t3] (3, 1) [(3, 2), (2, 0), (2, 1), (1, 0)] _
    (by rw [g3, g1]; exact not_lt.2 h31) e2
  rw [g3, g1] at e1
  have e0 := emit_pairs_cons [t0, t1, t2, t3] (3, 0) [(3, 1), (3, 2), (2, 0), (2, 1), (1, 0)] _
    (by rw [g3, g0]; exact not_lt.2 h30) e1
  rw [g3, g0] at e0
  unfold emit_time_differences
  rw [hp, e0]

/-- On the hit branch, the only error the classification/emission code
after the fine-time check can produce is the time-diff overflow. -/
theorem usbStep_fine_ok_not_invalidFine (P D : ℚ) (s : UsbState) (w : ℕ)
    (hch : usb_channel w < MAX_TDC_CHANNEL)
    (hf : ¬ COARSE_UNIT < (usb_fine w : ℚ)) :
    usbStep P D s w ≠ .error .invalidFine := by
  simp only [usbStep, if_pos hch, if_neg hf]
  repeat' split
  all_goals simp

/-! ## Claim C2 -/

/-- C2 counterexample: a word with channel nibble 0 whose 18-bit fine
field is exactly `COARSE_UNIT = 200000`.  The claim says this must be a
fatal "invalid fine time" error (`fine ≥ COARSE_UNIT`); the code's check
is strict (`fine > COARSE_UNIT`, line 632), so the hit is accepted and
recorded. -/
theorem C2_counterexample :
    (usb_fine 200000 : ℚ) = COARSE_UNIT ∧
    usbStep 10000000 11000 (usbInit 0) 200000
      = .ok (⟨[200, 0, 0, 0], [1, 0, 0, 0], 1, 200, false, 0⟩, []) := by
  have hfine : usb_fine 200000 = 200000 := by decide
  have hcoarse : usb_coarse 200000 = 0 := by decide
  have hch : usb_channel 200000 = 0 := by decide
  have ht : usb_time 200000 = 200 := by
    rw [usb_time, hfine, hcoarse]; norm_num [COARSE_UNIT]
  constructor
  · rw [hfine]; norm_num [COARSE_UNIT]
  · have hs : usbStep 10000000 11000 (usbInit 0) 200000 = .ok
        (⟨((usbInit 0).hist).set (usb_channel 200000) (usb_time 200000),
          ((usbInit 0).hitCount).set (usb_channel 200000)
            (((usbInit 0).hitCount).getD (usb_channel 200000) 0 + 1),
          (usbInit 0).counter + 1, usb_time 200000, false, (usbInit 0).skipEvents⟩, []) := by
      refine usbStep_inblock _ _ _ _ (by rw [hch]; decide) ?_ ?_
      · rw [hfine]; norm_num [COARSE_UNIT]
      · rw [usb_time_diff_first _ _ _ rfl]; norm_num
    rw [hs, hch, ht]
    norm_num [usbInit]

/-- C2 amended: on the hit branch (channel nibble < 4), `decode_usb_tdc`
raises the "invalid fine time" `ValueError` if and only if the word's
fine field is strictly greater than `COARSE_UNIT = 200000`; equivalently
every hit it accepts has `fine ≤ 200000`. -/
theorem C2_amended_invalid_fine_iff (P D : ℚ) (s : UsbState) (w : ℕ)
    (hch : usb_channel w < MAX_TDC_CHANNEL) :
    usbStep P D s w = .error .invalidFine ↔ COARSE_UNIT < (usb_fine w : ℚ) := by
  constructor
  · intro h
    by_contra hf
    exact usbStep_fine_ok_not_invalidFine P D s w hch hf h
  · intro hf
    simp [usbStep, hch, hf]

/-- C2 amended, concrete instance: fine field 200001 is rejected. -/
theorem C2_amended_witness :
    usbStep 10000000 11000 (usbInit 0) 200001 = .error .invalidFine :=
  (C2_amended_invalid_fine_iff 10000000 11000 (usbInit 0) 200001 (by decide)).mpr
    (by rw [show usb_fine 200001 = 200001 from by decide]; norm_num [COARSE_UNIT])

/-! ## Claim C8 -/

/-- C8: four in-block hits, one per channel 0..3 (each within the
`max_diff * 1.10` tolerance, so every `hit_count` reaches exactly 1),
followed by one boundary hit classified as mode 0, with `skip_events =
0` and all pairwise differences within the 11000 bound (no unwrap
needed), make `decode_usb_tdc` emit exactly one output line holding the
six pair tokens and ending in the mode tag `0`. -/
theorem C8_usb_one_block_one_line (P D : ℚ) (w0 w1 w2 w3 w4 : ℕ)
    (hD : 0 ≤ D)
    (hc0 : usb_channel w0 = 0) (hc1 : usb_channel w1 = 1)
    (hc2 : usb_channel w2 = 2) (hc3 : usb_channel w3 = 3)
    (hc4 : usb_channel w4 < MAX_TDC_CHANNEL)
    (hf0 : ¬ COARSE_UNIT < (usb_fine w0 : ℚ)) (hf1 : ¬ COARSE_UNIT < (usb_fine w1 : ℚ))
    (hf2 : ¬ COARSE_UNIT < (usb_fine w2 : ℚ)) (hf3 : ¬ COARSE_UNIT < (usb_fine w3 : ℚ))
    (hf4 : ¬ COARSE_UNIT < (usb_fine w4 : ℚ))
    (h01 : 0 ≤ usb_time w1 - usb_time w0) (h01d : usb_time w1 - usb_time w0 ≤ D * (110 / 100))
    (h12 : 0 ≤ usb_time w2 - usb_time w1) (h12d : usb_time w2 - usb_time w1 ≤ D * (110 / 100))
    (h23 : 0 ≤ usb_time w3 - usb_time w2) (h23d : usb_time w3 - usb_time w2 ≤ D * (110 / 100))
    (hb0 : 0 ≤ usb_time w4 - usb_time w3)
    (hbd : ¬ usb_time w4 - usb_time w3 ≤ D * (110 / 100))
    (hm1 : P * (90 / 100) < usb_time w4 - usb_time w3)
    (hm2 : usb_time w4 - usb_time w3 ≤ P * (110 / 100))
    (hpw : usb_time w3 - usb_time w0 ≤ 11000) :
    usbRun P D (usbInit 0) [w0, w1, w2, w3, w4]
      = .ok [.diffs
          [(3, 0, |usb_time w3 - usb_time w0|), (3, 1, |usb_time w3 - usb_time w1|),
           (3, 2, |usb_time w3 - usb_time w2|), (2, 0, |usb_time w2 - usb_time w0|),
           (2, 1, |usb_time w2 - usb_time w1|), (1, 0, |usb_time w1 - usb_time w0|)] 0] := by
  have hD' : (0 : ℚ) ≤ D * (110 / 100) := by
    have := mul_nonneg hD (by norm_num : (0 : ℚ) ≤ 110 / 100)
    linarith
  -- step 0: very first hit, sentinel diff −1, recorded in-block
  have htd0 : usb_time_diff D (usbInit 0) w0 ≤ D * (110 / 100) := by
    rw [usb_time_diff_first D (usbInit 0) w0 rfl]; linarith
  have s0 : usbStep P D (usbInit 0) w0
      = .ok (⟨[usb_time w0, 0, 0, 0], [1, 0, 0, 0], 1, usb_time w0, false, 0⟩, []) := by
    rw [usbStep_inblock P D (usbInit 0) w0 (by rw [hc0]; decide) hf0 htd0, hc0]
    simp [usbInit]
  -- step 1
  have htd1 : usb_time_diff D ⟨[usb_time w0, 0, 0, 0], [1, 0, 0, 0], 1, usb_time w0, false, 0⟩ w1
      ≤ D * (110 / 100) := by
    rw [usb_time_diff_forward D
      ⟨[usb_time w0, 0, 0, 0], [1, 0, 0, 0], 1, usb_time w0, false, 0⟩ w1 rfl h01]
    exact h01d
  have s1 : usbStep P D ⟨[usb_time w0, 0, 0, 0], [1, 0, 0, 0], 1, usb_time w0, false, 0⟩ w1
      = .ok (⟨[usb_time w0, usb_time w1, 0, 0], [1, 1, 0, 0], 2, usb_time w1, false, 0⟩, []) := by
    rw [usbStep_inblock P D
      ⟨[usb_time w0, 0, 0, 0], [1, 0, 0, 0], 1, usb_time w0, false, 0⟩ w1
      (by rw [hc1]; decide) hf1 htd1, hc1]
    simp
  -- step 2
  have htd2 : usb_time_diff D
      ⟨[usb_time w0, usb_time w1, 0, 0], [1, 1, 0, 0], 2, usb_time w1, false, 0⟩ w2
      ≤ D * (110 / 100) := by
    rw [usb_time_diff_forward D
      ⟨[usb_time w0, usb_time w1, 0, 0], [1, 1, 0, 0], 2, usb_time w1, false, 0⟩ w2 rfl h12]
    exact h12d
  have s2 : usbStep P D ⟨[usb_time w0, usb_time w1, 0, 0], [1, 1, 0, 0], 2, usb_time w1, false, 0⟩ w2
      = .ok (⟨[usb_time w0, usb_time w1, usb_time w2, 0], [1, 1, 1, 0], 3, usb_time w2, false, 0⟩,
          []) := by
    rw [usbStep_inblock P D
      ⟨[usb_time w0, usb_time w1, 0, 0], [1, 1, 0, 0], 2, usb_time w1, false, 0⟩ w2
      (by rw [hc2]; decide) hf2 htd2, hc2]
    simp
  -- step 3
  have htd3 : usb_time_diff D
      ⟨[usb_time w0, usb_time w1, usb_time w2, 0], [1, 1, 1, 0], 3, usb_time w2, false, 0⟩ w3
      ≤ D * (110 / 100) := by
    rw [usb_time_diff_forward D
      ⟨[usb_time w0, usb_time w1, usb_time w2, 0], [1, 1, 1, 0], 3, usb_time w2, false, 0⟩
      w3 rfl h23]
    exact h23d
  have s3 : usbStep P D
      ⟨[usb_time w0, usb_time w1, usb_time w2, 0], [1, 1, 1, 0], 3, usb_time w2, false, 0⟩ w3
      = .ok (⟨[usb_time w0, usb_time w1, usb_time w2, usb_time w3], [1, 1, 1, 1], 4,
          usb_time w3, false, 0⟩, []) := by
    rw [usbStep_inblock P D
      ⟨[usb_time w0, usb_time w1, usb_time w2, 0], [1, 1, 1, 0], 3, usb_time w2, false, 0⟩ w3
      (by rw [hc3]; decide) hf3 htd3, hc3]
    simp
  -- the pairwise emission on the completed block
  have a30 : |usb_time w3 - usb_time w0| ≤ 11000 := by
    rw [abs_of_nonneg (by linarith)]; linarith
  have a31 : |usb_time w3 - usb_time w1| ≤ 11000 := by
    rw [abs_of_nonneg (by linarith)]; linarith
  have a32 : |usb_time w3 - usb_time w2| ≤ 11000 := by
    rw [abs_of_nonneg (by linarith)]; linarith
  have a20 : |usb_time w2 - usb_time w0| ≤ 11000 := by
    rw [abs_of_nonneg (by linarith)]; linarith
  have a21 : |usb_time w2 - usb_time w1| ≤ 11000 := by
    rw [abs_of_nonneg (by linarith)]; linarith
  have a10 : |usb_time w1 - usb_time w0| ≤ 11000 := by
    rw [abs_of_nonneg (by linarith)]; linarith
  have hemit := emit_time_differences_ok (usb_time w0) (usb_time w1) (usb_time w2) (usb_time w3)
    0 a30 a31 a32 a20 a21 a10
  -- step 4: boundary hit, mode 0, full one-hit-per-channel block
  have htd4 : usb_time_diff D
      ⟨[usb_time w0, usb_time w1, usb_time w2, usb_time w3], [1, 1, 1, 1], 4,
        usb_time w3, false, 0⟩ w4
      = usb_time w4 - usb_time w3 :=
    usb_time_diff_forward D
      ⟨[usb_time w0, usb_time w1, usb_time w2, usb_time w3], [1, 1, 1, 1], 4,
        usb_time w3, false, 0⟩ w4 rfl hb0
  have s4 := usbStep_boundary_emit P D
    ⟨[usb_time w0, usb_time w1, usb_time w2, usb_time w3], [1, 1, 1, 1], 4,
      usb_time w3, false, 0⟩ w4 _ hc4 hf4
    (by rw [htd4]; exact hbd) (by rw [htd4]; exact hm1) (by rw [htd4]; exact hm2)
    rfl rfl rfl hemit
  exact usbRun_cons_ok P D _ _ _ _ w0 _ s0
    (usbRun_cons_ok P D _ _ _ _ w1 _ s1
      (usbRun_cons_ok P D _ _ _ _ w2 _ s2
        (usbRun_cons_ok P D _ _ _ _ w3 _ s3
          (usbRun_cons_ok P D _ _ _ _ w4 _ s4 (usbRun_nil P D _)))))

/-- C8, concrete instance: channels 0,1,2,3 at 0/10/20/30 ns, then a
boundary hit 10000 ns later with `P = 10000`, `D = 100`. -/
theorem C8_witness :
    usbRun 10000 100 (usbInit 0)
      [0, 68719486736, 137438973472, 206158460208, 13137200]
      = .ok [.diffs [(3, 0, 30), (3, 1, 20), (3, 2, 10), (2, 0, 20), (2, 1, 10), (1, 0, 10)] 0] := by
  have c0 : usb_coarse 0 = 0 := by decide
  have f0 : usb_fine 0 = 0 := by decide
  have c1 : usb_coarse 68719486736 = 0 := by decide
  have f1 : usb_fine 68719486736 = 10000 := by decide
  have c2 : usb_coarse 137438973472 = 0 := by decide
  have f2 : usb_fine 137438973472 = 20000 := by decide
  have c3 : usb_coarse 206158460208 = 0 := by decide
  have f3 : usb_fine 206158460208 = 30000 := by decide
  have c4 : usb_coarse 13137200 = 50 := by decide
  have f4 : usb_fine 13137200 = 30000 := by decide
  have e0 : usb_time 0 = 0 := by rw [usb_time, c0, f0]; norm_num
  have e1 : usb_time 68719486736 = 10 := by rw [usb_time, c1, f1]; norm_num [COARSE_UNIT]
  have e2 : usb_time 137438973472 = 20 := by rw [usb_time, c2, f2]; norm_num [COARSE_UNIT]
  have e3 : usb_time 206158460208 = 30 := by rw [usb_time, c3, f3]; norm_num [COARSE_UNIT]
  have e4 : usb_time 13137200 = 10030 := by rw [usb_time, c4, f4]; norm_num [COARSE_UNIT]
  have h := C8_usb_one_block_one_line 10000 100 0 68719486736 137438973472 206158460208 13137200
    (by norm_num)
    (by decide) (by decide) (by decide) (by decide) (by decide)
    (by rw [f0]; norm_num [COARSE_UNIT]) (by rw [f1]; norm_num [COARSE_UNIT])
    (by rw [f2]; norm_num [COARSE_UNIT]) (by rw [f3]; norm_num [COARSE_UNIT])
    (by rw [f4]; norm_num [COARSE_UNIT])
    (by rw [e1, e0]; norm_num) (by rw [e1, e0]; norm_num)
    (by rw [e2, e1]; norm_num) (by rw [e2, e1]; norm_num)
    (by rw [e3, e2]; norm_num) (by rw [e3, e2]; norm_num)
    (by rw [e4, e3]; norm_num) (by rw [e4, e3]; norm_num)
    (by rw [e4, e3]; norm_num) (by rw [e4, e3]; norm_num)
    (by rw [e3, e0]; norm_num)
  rw [e0, e1, e2, e3] at h
  norm_num at h
  exact h

/-! ## Claim C4 -/

/-- C4 counterexample: `average_dlm_data` with `n_channels = 3`,
`mean_expected = 2` on the stream `(0,1),(0,1),(1,2),(1,2),(2,3),(2,3)`.
The claim says one flushed line and zero skipped entries; the code emits
no line at all and records 4 skipped entries, because the whole stream
precedes the first channel rollover and `data_ok` never becomes true. -/
theorem C4_counterexample :
    average_dlm_data 2 3
      [.row [.intF 0, .floatF 1], .row [.intF 0, .floatF 1],
       .row [.intF 1, .floatF 2], .row [.intF 1, .floatF 2],
       .row [.intF 2, .floatF 3], .row [.intF 2, .floatF 3]]
      = .ok ([], 4) := rfl

/-- C4 amended: on that stream shape — three channels 0,1,2 in order
with two samples each and no rollover — the aggregator flushes no output
line and records 4 skipped entries (both pre-rollover buffers of
channels 0 and 1; channel 2's trailing buffer is never counted), for
every choice of the delay values. -/
theorem C4_amended_no_rollover_no_flush (d0 d1 d2 : ℚ) :
    average_dlm_data 2 3
      [.row [.intF 0, .floatF d0], .row [.intF 0, .floatF d0],
       .row [.intF 1, .floatF d1], .row [.intF 1, .floatF d1],
       .row [.intF 2, .floatF d2], .row [.intF 2, .floatF d2]]
      = .ok ([], 4) := rfl

/-! ## Claim C10 -/

/-- C10: with a positive `mean_expected`, `average_dlm_data` reaches
`prev_channel = data[0][0]` with an empty `data` list — and so fails
with the out-of-range `IndexError` — whenever every input line is blank,
a comment, or unparseable; it completes only if some line parses. -/
theorem C10_empty_data_index_error (mean_expected : ℤ) (n_channels : ℕ)
    (lines : List SrcLine) (hm : 0 < mean_expected)
    (hl : ∀ l ∈ lines, parse_line l = none) :
    average_dlm_data mean_expected n_channels lines = .error .emptyData := by
  have hdata : lines.filterMap parse_line = [] := by
    simp only [List.filterMap_eq_nil_iff]
    exact hl
  rw [average_dlm_data, if_neg (not_le.2 hm)]
  simp only [hdata]

/-- C10, concrete instance: a blank line, a comment, a line whose first
column is not an integer literal, and a one-column line. -/
theorem C10_witness :
    average_dlm_data 1 10 [.blank, .comment, .row [.other, .intF 3], .row [.intF 1]]
      = .error .emptyData :=
  C10_empty_data_index_error 1 10 _ (by norm_num)
    (by intro l hl
        simp only [List.mem_cons, List.not_mem_nil, or_false] at hl
        rcases hl with rfl | rfl | rfl | rfl <;> rfl)

/-! ## Helper lemmas about the calibration table -/

/-- Rounding to five decimals moves a value by at most `1 / 100000`. -/
theorem abs_round5_sub (q : ℚ) : |round5 q - q| ≤ 1 / 100000 := by
  have h : |q * 100000 - (round (q * 100000) : ℚ)| ≤ 1 / 2 := abs_sub_round (q * 100000)
  have h' : |(round (q * 100000) : ℚ) - q * 100000| ≤ 1 / 2 := by
    rw [abs_sub_comm]; exact h
  have step : round5 q - q = ((round (q * 100000) : ℚ) - q * 100000) / 100000 := by
    rw [round5]; ring
  rw [step, abs_div, abs_of_nonneg (by norm_num : (0 : ℚ) ≤ 100000)]
  calc |(round (q * 100000) : ℚ) - q * 100000| / 100000
      ≤ (1 / 2) / 100000 := by
        exact (div_le_div_iff_of_pos_right (by norm_num)).mpr h'
    _ ≤ 1 / 100000 := by norm_num

/-- Rounding to five decimals is monotone. -/
theorem round5_mono {a b : ℚ} (h : a ≤ b) : round5 a ≤ round5 b := by
  have hr : round (a * 100000) ≤ round (b * 100000) := by
    rw [round_eq, round_eq]
    exact Int.floor_le_floor (by linarith)
  rw [round5, round5]
  exact (div_le_div_iff_of_pos_right (by norm_num)).mpr (by exact_mod_cast hr)

theorem cal_bin_lsb_nonneg (dump : List ℕ) : 0 ≤ cal_bin_lsb dump := by
  rw [cal_bin_lsb]
  split
  · exact div_nonneg (by norm_num [FT_UNIT, TDC_FREQ]) (Nat.cast_nonneg _)
  · exact le_refl 0

theorem cal_bin_width_nonneg (dump : List ℕ) (i : ℕ) : 0 ≤ cal_bin_width dump i :=
  mul_nonneg (Nat.cast_nonneg _) (cal_bin_lsb_nonneg dump)

/-- The running cumulative sum never decreases. -/
theorem cal_summed_mono (dump : List ℕ) {m n : ℕ} (h : m ≤ n) :
    cal_summed dump m ≤ cal_summed dump n := by
  induction h with
  | refl => exact le_rfl
  | step h ih =>
    refine le_trans ih ?_
    rw [cal_summed]
    exact le_add_of_nonneg_right (cal_bin_width_nonneg dump _)

theorem process_raw_cal_length (dump : List ℕ) :
    (process_raw_cal dump).length = BLOCK_RAM_SIZE := by
  rw [process_raw_cal, List.length_map, List.length_range]

/-- The `i`-th written row, for `i < 512`. -/
theorem process_raw_cal_getD (dump : List ℕ) (i : ℕ) (hi : i < BLOCK_RAM_SIZE) (d : CalRow) :
    (process_raw_cal dump).getD i d
      = ⟨i, cal_entries dump i, round5 (cal_bin_width dump i),
          round5 (cal_bin_center dump i), round5 (cal_summed dump (i + 1))⟩ := by
  rw [process_raw_cal, List.getD_eq_getElem?_getD, List.getElem?_map,
    List.getElem?_range hi]
  rfl

/-! ## Claim C5 -/

/-- C5: for every calibration dump, loading the table written by
`process_raw_cal` succeeds (it has exactly the 512 required rows), and
each loaded `BIN_CENTER` value differs from the `bin_center` computed in
memory during the build only by the `%10.5f` formatting rounding, i.e.
by at most `1 / 100000`. -/
theorem C5_round_trip (dump : List ℕ) :
    load_calibration_file (process_raw_cal dump) = .ok (process_raw_cal dump) ∧
    ∀ i, i < BLOCK_RAM_SIZE →
      |((process_raw_cal dump).getD i ⟨0, 0, 0, 0, 0⟩).bin_center - cal_bin_center dump i|
        ≤ 1 / 100000 := by
  constructor
  · rw [load_calibration_file, if_pos (process_raw_cal_length dump)]
  · intro i hi
    rw [process_raw_cal_getD dump i hi]
    exact abs_round5_sub (cal_bin_center dump i)

/-- C5, concrete instance: the empty (degenerate all-zero) dump,
row 0. -/
theorem C5_witness :
    load_calibration_file (process_raw_cal []) = .ok (process_raw_cal []) ∧
    |((process_raw_cal []).getD 0 ⟨0, 0, 0, 0, 0⟩).bin_center - cal_bin_center [] 0|
      ≤ 1 / 100000 :=
  ⟨(C5_round_trip []).1, (C5_round_trip []).2 0 (by decide)⟩

/-! ## Claim C6 -/

/-- C6: for every calibration dump, the table written by
`process_raw_cal` has exactly 512 data rows, and the written
`cumulative_sum` column (`BIN_SUM`) is non-decreasing from row 0 to
row 511: the in-memory running sum only ever grows by the non-negative
`bin_width`, and the five-decimal formatting is monotone. -/
theorem C6_cumulative_sum_monotone (dump : List ℕ) :
    (process_raw_cal dump).length = 512 ∧
    ∀ i j, i ≤ j → j < BLOCK_RAM_SIZE →
      ((process_raw_cal dump).getD i ⟨0, 0, 0, 0, 0⟩).bin_sum
        ≤ ((process_raw_cal dump).getD j ⟨0, 0, 0, 0, 0⟩).bin_sum := by
  constructor
  · exact process_raw_cal_length dump
  · intro i j hij hj
    have hi : i < BLOCK_RAM_SIZE := lt_of_le_of_lt hij hj
    rw [process_raw_cal_getD dump i hi ⟨0, 0, 0, 0, 0⟩,
      process_raw_cal_getD dump j hj ⟨0, 0, 0, 0, 0⟩]
    exact round5_mono (cal_summed_mono dump (by omega))

/-- C6, concrete instance: the dump `[0x100005]` (bin 1, entry 5),
rows 0 and 1. -/
theorem C6_witness :
    (process_raw_cal [1048581]).length = 512 ∧
    ((process_raw_cal [1048581]).getD 0 ⟨0, 0, 0, 0, 0⟩).bin_sum
      ≤ ((process_raw_cal [1048581]).getD 1 ⟨0, 0, 0, 0, 0⟩).bin_sum :=
  ⟨(C6_cumulative_sum_monotone [1048581]).1,
   (C6_cumulative_sum_monotone [1048581]).2 0 1 (by norm_num) (by decide)⟩

end BlackCat
